import Mathlib

/-!
Verification development for the settlement-report processing backend
(src/main.py, src/processing.py, src/database.py).

A pandas DataFrame is embedded shallowly as a list of column names plus a
list of rows, where a row is an association list from column names to cell
values.  A cell value is either the missing sentinel (None / NaN), a string,
or a number (rationals stand in for Python floats; every numeric literal in
the program is exact).  Each Python function of the repository is translated
into a Lean definition of the same name; fallible column access (pandas
KeyError, the explicit ValueError of the payment normalizer) is modelled
with Except.
-/

namespace Backend

/-- Cell value of a table: the missing sentinel (Python None / pandas NaN),
a string, or a number. -/
inductive Value where
  | null : Value
  | str (s : String) : Value
  | num (q : ℚ) : Value
deriving DecidableEq, Repr

/-- One table row: an association list from column names to cell values. -/
abbrev Row := List (String × Value)

/-- A DataFrame: the column labels together with the rows. -/
structure Df where
  cols : List String
  rows : List Row
deriving DecidableEq, Repr

/-- Read the cell of column c in a row; a label that is not present reads as
the missing sentinel (pandas Series.get returns None for a missing label). -/
def rowGet : Row → String → Value
  | [], _ => .null
  | (k, v) :: r, c => if k = c then v else rowGet r c

/-- Column assignment on one row: overwrite the value of an existing label in
place, or append a fresh label at the end (pandas adds new columns at the
end of the frame). -/
def rowSet : Row → String → Value → Row
  | [], c, v => [(c, v)]
  | (k, w) :: r, c, v => if k = c then (k, v) :: r else (k, w) :: rowSet r c v

/-- pandas isna: true exactly on the missing sentinel. -/
def Value.isna : Value → Bool
  | .null => true
  | _ => false

/-- Python truthiness of a cell value as used by the statement
if row.get(oid): — None and the empty string and 0 are falsy, any other
string or number is truthy.  (Value.null models the Python None sentinel.) -/
def Value.truthy : Value → Bool
  | .null => false
  | .str s => decide (s ≠ "")
  | .num q => decide (q ≠ 0)

/-- Writing a column never changes the value read at any other column. -/
theorem rowGet_rowSet_ne (r : Row) (c c' : String) (v : Value) (h : c' ≠ c) :
    rowGet (rowSet r c v) c' = rowGet r c' := by
  have hcc : ¬ c = c' := fun hcc => h hcc.symm
  induction r with
  | nil => simp [rowSet, rowGet, hcc]
  | cons kv r ih =>
      obtain ⟨k, w⟩ := kv
      by_cases hk : k = c
      · subst hk
        simp [rowSet, rowGet, hcc]
      · simp [rowSet, hk, rowGet, ih]

/-- Writing a column makes that column read back the written value. -/
theorem rowGet_rowSet_self (r : Row) (c : String) (v : Value) :
    rowGet (rowSet r c v) c = v := by
  induction r with
  | nil => simp [rowSet, rowGet]
  | cons kv r ih =>
      obtain ⟨k, w⟩ := kv
      by_cases hk : k = c
      · subst hk; simp [rowSet, rowGet]
      · simp [rowSet, hk, rowGet, ih]

/-! ### MTR report normalization (src/main.py, process_mtr_report) -/

/-- Value remap applied to the Transaction Type column of the MTR report:
pandas Series.replace with the dictionary
Refund maps to Return, FreeReplacement maps to Return — an exact full-value
replacement, not a substring or case-insensitive one. -/
def mtrTransactionMap (v : Value) : Value :=
  if v = .str "Refund" ∨ v = .str "FreeReplacement" then .str "Return" else v

/-- process_mtr_report (src/main.py lines 154-186): on a copy of the input,
keep exactly the rows whose Transaction Type cell differs from the string
Cancel (case-sensitive exact comparison, missing cells compare unequal and
are kept), then replace Refund / FreeReplacement by Return in the
Transaction Type column.  Reading df with no Transaction Type column raises
a KeyError, modelled as the error branch. -/
def process_mtr_report (df : Df) : Except String Df :=
  if "Transaction Type" ∈ df.cols then
    .ok { cols := df.cols,
          rows := (df.rows.filter
              (fun r => decide (rowGet r "Transaction Type" ≠ .str "Cancel"))).map
            (fun r => rowSet r "Transaction Type"
              (mtrTransactionMap (rowGet r "Transaction Type"))) }
  else .error "KeyError: Transaction Type"

/-- C8: process_mtr_report modifies only the Transaction Type column: it
drops exactly the rows whose Transaction Type equals Cancel by case-sensitive
exact match, exact-replaces Refund and FreeReplacement with Return, leaves
every other column of every kept row unchanged, and preserves the relative
order of kept rows (the output row list is the filtered input row list mapped
pointwise). -/
theorem mtr_report_drops_cancel_and_touches_only_transaction_type
    (df : Df) (h : "Transaction Type" ∈ df.cols) :
    ∃ out, process_mtr_report df = .ok out ∧
      out.cols = df.cols ∧
      out.rows = (df.rows.filter
          (fun r => decide (rowGet r "Transaction Type" ≠ .str "Cancel"))).map
        (fun r => rowSet r "Transaction Type"
          (if rowGet r "Transaction Type" = .str "Refund" ∨
              rowGet r "Transaction Type" = .str "FreeReplacement"
           then .str "Return" else rowGet r "Transaction Type")) ∧
      (∀ (r : Row) (c : String), c ≠ "Transaction Type" → ∀ v : Value,
        rowGet (rowSet r "Transaction Type" v) c = rowGet r c) := by
  unfold process_mtr_report
  rw [if_pos h]
  exact ⟨_, rfl, rfl, by simp only [mtrTransactionMap],
         fun r c hc v => rowGet_rowSet_ne r _ c v hc⟩

/-- Witness for C8 at a concrete two-row table: the Cancel row is dropped,
the Refund row becomes a Return row with its other cells untouched. -/
theorem mtr_report_witness :
    ∃ out,
      process_mtr_report
        { cols := ["Order Id", "Transaction Type"],
          rows := [[("Order Id", .str "A1"), ("Transaction Type", .str "Cancel")],
                   [("Order Id", .str "A2"), ("Transaction Type", .str "Refund")]] }
        = .ok out ∧
      out.cols = ["Order Id", "Transaction Type"] ∧
      out.rows = [[("Order Id", .str "A2"), ("Transaction Type", .str "Return")]] := by
  obtain ⟨out, h1, h2, h3, -⟩ :=
    mtr_report_drops_cancel_and_touches_only_transaction_type
      { cols := ["Order Id", "Transaction Type"],
        rows := [[("Order Id", .str "A1"), ("Transaction Type", .str "Cancel")],
                 [("Order Id", .str "A2"), ("Transaction Type", .str "Refund")]] }
      (by decide)
  exact ⟨out, h1, h2, by rw [h3]; decide⟩

/-! ### Payment report normalization (src/main.py, process_payment_report)

String primitives are defined over the character list of a String so that
every definition evaluates inside the kernel; they model the Python and
pandas string operations used by the normalizer on the (ASCII) values the
reports contain. -/

/-- Python str.lower on basic latin letters. -/
def lowerStr (s : String) : String := ⟨s.data.map Char.toLower⟩

/-- Python str.strip: remove leading and trailing whitespace (spaces,
tabs, newlines). -/
def trimStr (s : String) : String :=
  ⟨((s.data.dropWhile Char.isWhitespace).reverse.dropWhile Char.isWhitespace).reverse⟩

/-- Whether pat occurs at the start of s. -/
def startsWithChars : List Char → List Char → Bool
  | _, [] => true
  | [], _ :: _ => false
  | c :: cs, p :: ps => c = p && startsWithChars cs ps

/-- Whether pat occurs as a contiguous run anywhere in s. -/
def containsChars : List Char → List Char → Bool
  | [], pat => pat.isEmpty
  | c :: cs, pat => startsWithChars (c :: cs) pat || containsChars cs pat

/-- Substring containment on strings, as used by the pandas str.contains
check with a plain (non-regex) pattern. -/
def containsSubstring (s pat : String) : Bool :=
  containsChars s.data pat.data

/-- First value bound to key s in an association list of strings. -/
def lookupStr : List (String × String) → String → Option String
  | [], _ => none
  | (k, v) :: m, s => if k = s then some v else lookupStr m s

/-- clean_string_values (src/main.py lines 58-68): strip surrounding
whitespace and newlines from every string cell.  Numeric columns are not
object-typed in pandas and are untouched; missing cells stay missing. -/
def cleanCell : Value → Value
  | .str s => .str (trimStr s)
  | v => v

/-- Apply cleanCell to every cell of every row. -/
def clean_string_values (df : Df) : Df :=
  { df with rows := df.rows.map (List.map (fun kv => (kv.1, cleanCell kv.2))) }

/-- find_column (src/main.py lines 48-56): the first column label whose
lowercase form matches the lowercase form of one of the acceptable names,
if any. -/
def find_column (cols : List String) (possible_names : List String) : Option String :=
  cols.find? (fun c => decide (lowerStr c ∈ possible_names.map lowerStr))

/-- case_insensitive_replace (src/main.py lines 70-83) acting on one cell:
every mask is computed against the lowercased original series, so a string
cell whose lowercase form equals a lowercased mapping key is replaced by the
mapped value; other cells (including missing ones) are unchanged.  The
lowered mapping keys are pairwise distinct, so the sequential mask updates
of the Python loop amount to a single lookup. -/
def case_insensitive_replace (mapping : List (String × String)) : Value → Value
  | .str s =>
      match lookupStr (mapping.map (fun kv => (lowerStr kv.1, kv.2))) (lowerStr s) with
      | some nv => .str nv
      | none => .str s
  | v => v

/-- Type-column remap of the payment normalizer (src/main.py lines 113-119). -/
def type_mapping : List (String × String) :=
  [("Refund", "Return"), ("Adjustment", "Order"), ("FBA Inventory Fee", "Order"),
   ("Fulfilment Fee Refund", "Order"), ("Service Fee", "Order")]

/-- Description-column remap of the payment normalizer
(src/main.py lines 121-127). -/
def desc_mapping : List (String × String) :=
  [("Adjustment", "Order"), ("FBA Inventory Fee", "Order"),
   ("Fulfillment Fee Refund", "Order"), ("Service Fee", "Order"),
   ("FBA Inventory Reimbursement - Customer Service Issue", "Order")]

/-- process_payment_report (src/main.py lines 85-152): trim string cells,
resolve the type and description columns case-insensitively (ValueError when
either is missing), drop rows whose type cell contains the substring
transfer case-insensitively (missing cells are kept, na=False), apply the
two case-insensitive remaps, force any remaining lowercase refund in the
type column to Return, rename the type column to Payment Type, and set a
constant Transaction Type column to Payment. -/
def process_payment_report (payment_data : Df) : Except String Df :=
  let df := clean_string_values payment_data
  match find_column df.cols ["type", "Type", "TYPE"],
        find_column df.cols ["description", "Description", "DESCRIPTION"] with
  | some type_col, some desc_col =>
      let rows1 := df.rows.filter (fun r =>
        match rowGet r type_col with
        | .str s => !(containsSubstring (lowerStr s) "transfer")
        | _ => true)
      let rows2 := rows1.map (fun r =>
        rowSet r type_col (case_insensitive_replace type_mapping (rowGet r type_col)))
      let rows3 := rows2.map (fun r =>
        rowSet r desc_col (case_insensitive_replace desc_mapping (rowGet r desc_col)))
      let rows4 := rows3.map (fun r =>
        match rowGet r type_col with
        | .str s => if lowerStr s = "refund" then rowSet r type_col (.str "Return") else r
        | _ => r)
      let cols5 := df.cols.map (fun c => if c = type_col then "Payment Type" else c)
      let rows5 := rows4.map (List.map (fun kv =>
        if kv.1 = type_col then ("Payment Type", kv.2) else kv))
      let cols6 := if "Transaction Type" ∈ cols5 then cols5 else cols5 ++ ["Transaction Type"]
      let rows6 := rows5.map (fun r => rowSet r "Transaction Type" (.str "Payment"))
      .ok { cols := cols6, rows := rows6 }
  | _, _ => .error "Required columns not found in payment report"

/-- A concrete raw payment table: one ordinary row, no transfer rows. -/
def paymentRaw : Df :=
  { cols := ["type", "description", "order id", "total", "date/time"],
    rows := [[("type", .str "Order Payment"), ("description", .str "Standard Order"),
              ("order id", .str "403-1234567-8901234"), ("total", .num 250),
              ("date/time", .str "2024-05-01")]] }

/-- The normalized form of paymentRaw: the type column is renamed to
Payment Type and a constant Transaction Type column is added. -/
def paymentNormalized : Df :=
  { cols := ["Payment Type", "description", "order id", "total", "date/time",
             "Transaction Type"],
    rows := [[("Payment Type", .str "Order Payment"), ("description", .str "Standard Order"),
              ("order id", .str "403-1234567-8901234"), ("total", .num 250),
              ("date/time", .str "2024-05-01"), ("Transaction Type", .str "Payment")]] }

/-- C7 counterexample: paymentNormalized is literally the output of
process_payment_report on a raw table (so it is already-normalized payment
data with no transfer rows and the type column already renamed), yet
re-running process_payment_report on it does not succeed: it raises the
required-columns ValueError, because no remaining column label lowercases
to type. -/
theorem payment_rerun_counterexample :
    process_payment_report paymentRaw = .ok paymentNormalized ∧
    process_payment_report paymentNormalized =
      .error "Required columns not found in payment report" :=
  ⟨by rfl, by rfl⟩

/-- C7 amended: payment normalization is not idempotent; on any table with no
column whose lowercase name is type — in particular on its own output, where
the type column has been renamed to Payment Type — process_payment_report
fails with the required-columns error instead of being a no-op. -/
theorem payment_rerun_fails_without_type_column (df : Df)
    (h : find_column df.cols ["type", "Type", "TYPE"] = none) :
    process_payment_report df = .error "Required columns not found in payment report" := by
  unfold process_payment_report
  have h' : find_column (clean_string_values df).cols ["type", "Type", "TYPE"] = none := h
  simp only [h']

/-- Witness for the amended C7 theorem at a concrete normalized table. -/
theorem payment_rerun_fails_witness :
    process_payment_report
      { cols := ["Payment Type", "description", "Transaction Type"], rows := [] } =
      .error "Required columns not found in payment report" :=
  payment_rerun_fails_without_type_column _ (by rfl)

/-! ### Report merger (src/main.py, create_exemplar_report) -/

/-- Column labels of the exemplar report built by create_exemplar_report
(src/main.py lines 195-228). -/
def exemplarCols : List String :=
  ["Order Id", "Transaction Type", "Payment Type", "Invoice Amount",
   "Net Amount", "P Description", "Order Date", "Payment Date"]

/-- The gap block inserted between the two segments.  The source builds it
as pd.DataFrame of a list of eight Nones, transposed, times 5.  The times 5
there is pandas elementwise arithmetic on an object column of Nones — None
is the missing value, and masked arithmetic leaves missing values missing —
so the block is a single all-null row, not five rows.  (The block also
carries positional column labels 0..7 rather than the named labels, so the
outer concat unions those extra labels in as columns that are null on every
row; they are omitted here because the named columns of every row, and the
row count, are exactly as modelled.) -/
def gapRow : Row := exemplarCols.map (fun c => (c, Value.null))

/-- Contribution of one processed MTR row to the merged stream: its Order
Id, Transaction Type, Invoice Amount, Item Description (as P Description)
and Order Date are carried over; Payment Type, Net Amount and Payment Date
are null for MTR-derived rows. -/
def mtrToExemplar (r : Row) : Row :=
  [("Order Id", rowGet r "Order Id"),
   ("Transaction Type", rowGet r "Transaction Type"),
   ("Payment Type", Value.null),
   ("Invoice Amount", rowGet r "Invoice Amount"),
   ("Net Amount", Value.null),
   ("P Description", rowGet r "Item Description"),
   ("Order Date", rowGet r "Order Date"),
   ("Payment Date", Value.null)]

/-- Contribution of one processed payment row to the merged stream: its
order id, Transaction Type, Payment Type, total (as Net Amount),
description (as P Description) and date/time (as Payment Date) are carried
over; Invoice Amount and Order Date are null for payment-derived rows. -/
def payToExemplar (r : Row) : Row :=
  [("Order Id", rowGet r "order id"),
   ("Transaction Type", rowGet r "Transaction Type"),
   ("Payment Type", rowGet r "Payment Type"),
   ("Invoice Amount", Value.null),
   ("Net Amount", rowGet r "total"),
   ("P Description", rowGet r "description"),
   ("Order Date", Value.null),
   ("Payment Date", rowGet r "date/time")]

/-- Columns of the processed MTR report read by create_exemplar_report. -/
def mtrSourceCols : List String :=
  ["Order Id", "Transaction Type", "Invoice Amount", "Item Description", "Order Date"]

/-- Columns of the processed payment report read by create_exemplar_report. -/
def paySourceCols : List String :=
  ["order id", "Transaction Type", "Payment Type", "total", "description", "date/time"]

/-- create_exemplar_report (src/main.py lines 188-244): concatenate the MTR
segment and the payment segment field by field in that order, then insert
the gap block between them.  Reading a missing column raises a KeyError,
modelled as the error branch.  See gapRow for why the gap block is one row. -/
def create_exemplar_report (mtr_df payment_df : Df) : Except String Df :=
  if mtrSourceCols.all (fun c => decide (c ∈ mtr_df.cols)) &&
     paySourceCols.all (fun c => decide (c ∈ payment_df.cols)) then
    .ok { cols := exemplarCols,
          rows := mtr_df.rows.map mtrToExemplar ++ [gapRow]
                    ++ payment_df.rows.map payToExemplar }
  else .error "KeyError"

/-- C1: the merged stream is the MTR segment in order, then the gap block,
then the payment segment in order — but the gap block is a single all-null
row, so the total length is m + 1 + p rather than the m + 5 + p the spec
requires. -/
theorem exemplar_gap_is_single_row (mtr_df payment_df out : Df)
    (h : create_exemplar_report mtr_df payment_df = .ok out) :
    out.rows = mtr_df.rows.map mtrToExemplar ++ [gapRow]
                 ++ payment_df.rows.map payToExemplar ∧
    out.rows.length = mtr_df.rows.length + 1 + payment_df.rows.length ∧
    (∀ c, rowGet gapRow c = Value.null) := by
  unfold create_exemplar_report at h
  split at h
  · injection h with h
    subst h
    refine ⟨rfl, ?_, ?_⟩
    · simp only [List.length_append, List.length_map, List.length_singleton]
    · intro c
      show rowGet (exemplarCols.map (fun c => (c, Value.null))) c = Value.null
      simp only [exemplarCols, List.map_cons, List.map_nil, rowGet]
      split_ifs <;> rfl
  · exact absurd h (by simp)

/-- A concrete processed MTR table with one shipment row. -/
def mtrNormalized : Df :=
  { cols := ["Order Id", "Transaction Type", "Invoice Amount",
             "Item Description", "Order Date"],
    rows := [[("Order Id", .str "171-0000000-0000001"),
              ("Transaction Type", .str "Shipment"),
              ("Invoice Amount", .num 500),
              ("Item Description", .str "Widget"),
              ("Order Date", .str "2024-04-01")]] }

/-- The merged report produced from mtrNormalized and paymentNormalized:
the MTR-derived row, one all-null gap row, the payment-derived row. -/
def exemplarMerged : Df :=
  { cols := exemplarCols,
    rows := [[("Order Id", .str "171-0000000-0000001"),
              ("Transaction Type", .str "Shipment"),
              ("Payment Type", .null),
              ("Invoice Amount", .num 500),
              ("Net Amount", .null),
              ("P Description", .str "Widget"),
              ("Order Date", .str "2024-04-01"),
              ("Payment Date", .null)],
             [("Order Id", .null), ("Transaction Type", .null),
              ("Payment Type", .null), ("Invoice Amount", .null),
              ("Net Amount", .null), ("P Description", .null),
              ("Order Date", .null), ("Payment Date", .null)],
             [("Order Id", .str "403-1234567-8901234"),
              ("Transaction Type", .str "Payment"),
              ("Payment Type", .str "Order Payment"),
              ("Invoice Amount", .null),
              ("Net Amount", .num 250),
              ("P Description", .str "Standard Order"),
              ("Order Date", .null),
              ("Payment Date", .str "2024-05-01")]] }

/-- Witness for C1: with one MTR row and one payment row the merged stream
has 3 rows (1 + 1 + 1), not the 7 rows (1 + 5 + 1) the spec asks for. -/
theorem exemplar_gap_witness :
    create_exemplar_report mtrNormalized paymentNormalized = .ok exemplarMerged ∧
    exemplarMerged.rows.length = 1 + 1 + 1 :=
  ⟨by rfl,
   (exemplar_gap_is_single_row mtrNormalized paymentNormalized exemplarMerged
      (by rfl)).2.1⟩

/-! ### Categorizer (src/processing.py, categorize_transactions) -/

/-- Columns read by categorize_transactions, in the order the source reads
them (src/processing.py lines 54-69); reading a missing one raises a
KeyError. -/
def catSourceCols : List String :=
  ["order_id", "transaction_type", "invoice_amount", "net_amount",
   "payment_net_amount", "shipment_invoice_amount"]

/-- The category assigned to one record by the sequential overwrite chain of
categorize_transactions (src/processing.py lines 45-72); each pandas loc
assignment is a per-row mask, so the whole-table chain acts independently on
every row, last write wins.  Rule 2 matches string order ids of length
exactly 10 (str.len of a missing or numeric cell is missing and never
equals 10); rule 4 compares net_amount with 0, which only a numeric cell
can satisfy. -/
def categoryOf (r : Row) : String :=
  let cat := "Uncategorized"
  let cat := match rowGet r "order_id" with
             | .str s => if s.length = 10 then "Removal Order" else cat
             | _ => cat
  let cat := if rowGet r "transaction_type" = .str "Return" ∧
                (rowGet r "invoice_amount").isna = false
             then "Return" else cat
  let cat := match rowGet r "net_amount" with
             | .num q => if rowGet r "transaction_type" = .str "Payment" ∧ q < 0
                         then "Negative Payout" else cat
             | _ => cat
  let cat := if (rowGet r "order_id").isna = false ∧
                (rowGet r "payment_net_amount").isna = false ∧
                (rowGet r "shipment_invoice_amount").isna = false
             then "Order & Payment Received" else cat
  let cat := if (rowGet r "order_id").isna = false ∧
                (rowGet r "payment_net_amount").isna = false ∧
                (rowGet r "shipment_invoice_amount").isna = true
             then "Order Not Applicable but Payment Received" else cat
  let cat := if (rowGet r "order_id").isna = false ∧
                (rowGet r "payment_net_amount").isna = true ∧
                (rowGet r "shipment_invoice_amount").isna = false
             then "Payment Pending" else cat
  cat

/-- categorize_transactions (src/processing.py lines 45-72): add a category
column holding the final value of the rule chain for every row.  The first
required column missing from the frame raises a KeyError (the category
column itself is assigned before any rule reads a column, so it never
fails). -/
def categorize_transactions (df : Df) : Except String Df :=
  match catSourceCols.find? (fun c => !decide (c ∈ df.cols)) with
  | some c => .error ("KeyError: " ++ c)
  | none =>
      .ok { cols := if "category" ∈ df.cols then df.cols else df.cols ++ ["category"],
            rows := df.rows.map (fun r => rowSet r "category" (.str (categoryOf r))) }

/-- C2: the categorizer rejects the merger output.  create_exemplar_report
labels its columns Order Id, Transaction Type, ... while
categorize_transactions reads order_id, transaction_type, ... (and two
columns, payment_net_amount and shipment_invoice_amount, that the merged
frame does not carry under any spelling), so categorization of any merged
frame raises KeyError on order_id instead of producing one categorized
record per row. -/
theorem categorizer_rejects_merger_output (mtr_df payment_df out : Df)
    (h : create_exemplar_report mtr_df payment_df = .ok out) :
    categorize_transactions out = .error "KeyError: order_id" := by
  unfold create_exemplar_report at h
  split at h
  · injection h with h
    subst h
    rfl
  · exact absurd h (by simp)

/-- Witness for C2 at the concrete merged table exemplarMerged. -/
theorem categorizer_rejects_merger_output_witness :
    categorize_transactions exemplarMerged = .error "KeyError: order_id" :=
  categorizer_rejects_merger_output mtrNormalized paymentNormalized
    exemplarMerged (by rfl)

/-- C4: the categorization rules run in the fixed source order with
last-write-wins semantics, so a row that matches both rule 3 (transaction
type Return with invoice amount present) and rule 5 (order id, payment net
amount and shipment invoice amount all present) ends with the rule-5 label
Order & Payment Received. -/
theorem categorize_return_overridden_by_rule5
    (df : Df) (hc : ∀ c ∈ catSourceCols, c ∈ df.cols)
    (r : Row) (hr : r ∈ df.rows)
    (_htt : rowGet r "transaction_type" = .str "Return")
    (_hinv : (rowGet r "invoice_amount").isna = false)
    (hoid : (rowGet r "order_id").isna = false)
    (hpna : (rowGet r "payment_net_amount").isna = false)
    (hsiv : (rowGet r "shipment_invoice_amount").isna = false) :
    ∃ out, categorize_transactions df = .ok out ∧
      rowSet r "category" (.str "Order & Payment Received") ∈ out.rows := by
  have hfind : catSourceCols.find? (fun c => !decide (c ∈ df.cols)) = none := by
    rw [List.find?_eq_none]
    intro c hcmem
    simp [hc c hcmem]
  have hcat : categoryOf r = "Order & Payment Received" := by
    unfold categoryOf
    simp [hoid, hpna, hsiv]
  refine ⟨{ cols := if "category" ∈ df.cols then df.cols else df.cols ++ ["category"],
            rows := df.rows.map (fun r => rowSet r "category" (.str (categoryOf r))) },
          ?_, ?_⟩
  · unfold categorize_transactions
    rw [hfind]
  · exact List.mem_map.mpr ⟨r, hr, by rw [hcat]⟩

/-- A record matching rule 2 (10-character order id), rule 3 (Return with
invoice amount) and rule 5 (all three amounts present) at once. -/
def c4Row : Row :=
  [("order_id", .str "OD00000001"), ("transaction_type", .str "Return"),
   ("invoice_amount", .num 120), ("net_amount", .num 100),
   ("payment_net_amount", .num 100), ("shipment_invoice_amount", .num 120)]

/-- Witness for C4: on a concrete one-row frame the final category is the
rule-5 label. -/
theorem categorize_return_overridden_witness :
    ∃ out, categorize_transactions { cols := catSourceCols, rows := [c4Row] } = .ok out ∧
      rowSet c4Row "category" (.str "Order & Payment Received") ∈ out.rows :=
  categorize_return_overridden_by_rule5
    { cols := catSourceCols, rows := [c4Row] } (by decide) c4Row (by decide)
    (by rfl) (by rfl) (by rfl) (by rfl) (by rfl)

/-! ### Tolerance analyzer (src/processing.py, perform_tolerance_analysis
and calculate_tolerance) -/

/-- Threshold tier of calculate_tolerance (src/processing.py lines 170-179),
selected by the payment net amount. -/
def thresholdFor (pna : ℚ) : ℚ :=
  if 0 < pna ∧ pna ≤ 300 then 50
  else if 300 < pna ∧ pna ≤ 500 then 45
  else if 500 < pna ∧ pna ≤ 900 then 43
  else if 900 < pna ∧ pna ≤ 1500 then 38
  else 30

/-- calculate_tolerance (src/processing.py lines 167-182): the tier
threshold, and the status Within Tolerance exactly when the given percentage
is at least the threshold. -/
def calculate_tolerance (pna : ℚ) (percentage : ℚ) : ℚ × String :=
  (thresholdFor pna,
   if percentage ≥ thresholdFor pna then "Within Tolerance" else "Tolerance Breached")

/-- One stored tolerance analysis record (the ToleranceAnalysis entity of
src/database.py, as filled by perform_tolerance_analysis). -/
structure ToleranceEntry where
  processed_data_id : Option ℕ
  order_id : Value
  payment_net_amount : ℚ
  shipment_invoice_amount : ℚ
  tolerance_percentage : ℚ
  tolerance_threshold : ℚ
  tolerance_status : String
deriving DecidableEq, Repr

/-- Lookup in the order-id-to-identifier mapping (Python dict.get). -/
def assocGet : List (Value × ℕ) → Value → Option ℕ
  | [], _ => none
  | (k, n) :: m, v => if k = v then some n else assocGet m v

/-- The tolerance entry emitted for one record, if any
(src/processing.py lines 143-157): a record passes the mask when both
amounts are non-missing, and is stored when the shipment invoice amount is
also nonzero.  The amount columns are Float in the schema, so a present
amount is a number (a string there would make the Python division raise;
the theorems assume numeric-or-missing cells). -/
def tolEmit (mapping : List (Value × ℕ)) (r : Row) : Option ToleranceEntry :=
  match rowGet r "payment_net_amount", rowGet r "shipment_invoice_amount" with
  | .num a, .num b =>
      if b ≠ 0 then
        let percentage := a / b * 100
        some { processed_data_id := assocGet mapping (rowGet r "order_id"),
               order_id := rowGet r "order_id",
               payment_net_amount := a,
               shipment_invoice_amount := b,
               tolerance_percentage := percentage,
               tolerance_threshold := (calculate_tolerance a percentage).1,
               tolerance_status := (calculate_tolerance a percentage).2 }
      else none
  | _, _ => none

/-- Columns read by perform_tolerance_analysis. -/
def tolSourceCols : List String :=
  ["payment_net_amount", "shipment_invoice_amount", "order_id"]

/-- perform_tolerance_analysis (src/processing.py lines 135-160): one entry
per record passing the mask and the nonzero check, in row order; skipped
records produce nothing and no error. -/
def perform_tolerance_analysis (df : Df)
    (processed_id_mapping : List (Value × ℕ)) : Except String (List ToleranceEntry) :=
  if tolSourceCols.all (fun c => decide (c ∈ df.cols)) then
    .ok (df.rows.filterMap (tolEmit processed_id_mapping))
  else .error "KeyError"

/-- A cell is a number or the missing sentinel (no string). -/
def Value.isNumOrNull : Value → Bool
  | .str _ => false
  | _ => true

/-- C6: perform_tolerance_analysis succeeds on every frame with the three
columns and numeric-or-missing amounts, emits the per-row entries in order,
and emits an entry for a record exactly when both amounts are present and
the shipment invoice amount is nonzero; all other records are skipped
silently while the rest are still processed. -/
theorem tolerance_emission_iff (df : Df) (mapping : List (Value × ℕ))
    (hc : ∀ c ∈ tolSourceCols, c ∈ df.cols)
    (hnum : ∀ r ∈ df.rows, (rowGet r "payment_net_amount").isNumOrNull = true ∧
                           (rowGet r "shipment_invoice_amount").isNumOrNull = true) :
    perform_tolerance_analysis df mapping = .ok (df.rows.filterMap (tolEmit mapping)) ∧
    ∀ r ∈ df.rows,
      ((tolEmit mapping r).isSome = true ↔
        ((rowGet r "payment_net_amount").isna = false ∧
         (rowGet r "shipment_invoice_amount").isna = false ∧
         rowGet r "shipment_invoice_amount" ≠ .num 0)) := by
  constructor
  · unfold perform_tolerance_analysis
    rw [if_pos]
    rw [List.all_eq_true]
    intro c hcm
    simpa using hc c hcm
  · intro r hr
    obtain ⟨h1, h2⟩ := hnum r hr
    unfold tolEmit
    cases hpa : rowGet r "payment_net_amount" <;>
      cases hsa : rowGet r "shipment_invoice_amount" <;>
        rw [hpa] at h1 <;> rw [hsa] at h2 <;>
          simp_all [Value.isNumOrNull, Value.isna]

/-- A concrete categorized frame: a row that emits, a row with zero
shipment amount, a row with a missing payment amount. -/
def tolDf : Df :=
  { cols := ["order_id", "payment_net_amount", "shipment_invoice_amount"],
    rows := [[("order_id", .str "171-0000000-0000001"),
              ("payment_net_amount", .num 200),
              ("shipment_invoice_amount", .num 500)],
             [("order_id", .str "171-0000000-0000002"),
              ("payment_net_amount", .num 900),
              ("shipment_invoice_amount", .num 0)],
             [("order_id", .str "171-0000000-0000003"),
              ("payment_net_amount", .null),
              ("shipment_invoice_amount", .num 250)]] }

/-- Witness for C6 at the concrete frame tolDf. -/
theorem tolerance_emission_iff_witness :
    perform_tolerance_analysis tolDf [] = .ok (tolDf.rows.filterMap (tolEmit [])) ∧
    ∀ r ∈ tolDf.rows,
      ((tolEmit [] r).isSome = true ↔
        ((rowGet r "payment_net_amount").isna = false ∧
         (rowGet r "shipment_invoice_amount").isna = false ∧
         rowGet r "shipment_invoice_amount" ≠ .num 0)) :=
  tolerance_emission_iff tolDf [] (by decide) (by decide)

/-- C5: the tolerance result carries percentage pna / shipment times 100 and
the pair produced by calculate_tolerance on it; the threshold tiers are 50
on (0,300], 45 on (300,500], 43 on (500,900], 38 on (900,1500] and 30
otherwise (including pna at most 0); the status is Within Tolerance exactly
when the percentage reaches the threshold; and the three worked examples of
the spec come out as stated. -/
theorem tolerance_threshold_tiers_and_examples :
    (∀ a b : ℚ, b ≠ 0 →
      tolEmit [] [("payment_net_amount", .num a), ("shipment_invoice_amount", .num b)] =
        some { processed_data_id := none, order_id := .null,
               payment_net_amount := a, shipment_invoice_amount := b,
               tolerance_percentage := a / b * 100,
               tolerance_threshold := (calculate_tolerance a (a / b * 100)).1,
               tolerance_status := (calculate_tolerance a (a / b * 100)).2 }) ∧
    (∀ pna percentage : ℚ,
      ((0 < pna ∧ pna ≤ 300) → (calculate_tolerance pna percentage).1 = 50) ∧
      ((300 < pna ∧ pna ≤ 500) → (calculate_tolerance pna percentage).1 = 45) ∧
      ((500 < pna ∧ pna ≤ 900) → (calculate_tolerance pna percentage).1 = 43) ∧
      ((900 < pna ∧ pna ≤ 1500) → (calculate_tolerance pna percentage).1 = 38) ∧
      ((pna ≤ 0 ∨ 1500 < pna) → (calculate_tolerance pna percentage).1 = 30) ∧
      ((calculate_tolerance pna percentage).2 = "Within Tolerance" ↔
        (calculate_tolerance pna percentage).1 ≤ percentage)) ∧
    calculate_tolerance 200 (200 / 500 * 100) = (50, "Tolerance Breached") ∧
    calculate_tolerance 200 (200 / 100 * 100) = (50, "Within Tolerance") ∧
    calculate_tolerance 1000 (1000 / 1000 * 100) = (38, "Within Tolerance") := by
  have ht200 : thresholdFor 200 = 50 := by
    rw [thresholdFor, if_pos (by norm_num)]
  have ht1000 : thresholdFor 1000 = 38 := by
    rw [thresholdFor, if_neg (by rintro ⟨-, h⟩; linarith),
        if_neg (by rintro ⟨-, h⟩; linarith), if_neg (by rintro ⟨-, h⟩; linarith),
        if_pos (by norm_num)]
  refine ⟨?_, ?_, ?_, ?_, ?_⟩
  · intro a b hb
    simp [tolEmit, rowGet, hb, assocGet]
  rotate_left
  · rw [calculate_tolerance, ht200, if_neg (by norm_num)]
  · rw [calculate_tolerance, ht200, if_pos (by norm_num)]
  · rw [calculate_tolerance, ht1000, if_pos (by norm_num)]
  · intro pna percentage
    refine ⟨?_, ?_, ?_, ?_, ?_, ?_⟩
    · intro h
      show thresholdFor pna = 50
      rw [thresholdFor, if_pos h]
    · rintro ⟨h1, h2⟩
      show thresholdFor pna = 45
      rw [thresholdFor, if_neg (by rintro ⟨-, h⟩; linarith), if_pos ⟨h1, h2⟩]
    · rintro ⟨h1, h2⟩
      show thresholdFor pna = 43
      rw [thresholdFor, if_neg (by rintro ⟨-, h⟩; linarith),
          if_neg (by rintro ⟨-, h⟩; linarith), if_pos ⟨h1, h2⟩]
    · rintro ⟨h1, h2⟩
      show thresholdFor pna = 38
      rw [thresholdFor, if_neg (by rintro ⟨-, h⟩; linarith),
          if_neg (by rintro ⟨-, h⟩; linarith),
          if_neg (by rintro ⟨-, h⟩; linarith), if_pos ⟨h1, h2⟩]
    · rintro (h | h) <;>
        · show thresholdFor pna = 30
          rw [thresholdFor, if_neg (by rintro ⟨h1, h2⟩; linarith),
              if_neg (by rintro ⟨h1, h2⟩; linarith),
              if_neg (by rintro ⟨h1, h2⟩; linarith),
              if_neg (by rintro ⟨h1, h2⟩; linarith)]
    · have hne : ("Tolerance Breached" : String) ≠ "Within Tolerance" := by decide
      by_cases hp : thresholdFor pna ≤ percentage
      · simp [calculate_tolerance, ge_iff_le, hp]
      · simp [calculate_tolerance, ge_iff_le, hp, hne]

/-- Witness for C5: the theorem applied at the first worked example of the
spec, payment 200 against shipment 500. -/
theorem tolerance_threshold_tiers_witness :
    tolEmit [] [("payment_net_amount", Value.num 200),
                ("shipment_invoice_amount", Value.num 500)] =
      some { processed_data_id := none, order_id := .null,
             payment_net_amount := 200, shipment_invoice_amount := 500,
             tolerance_percentage := 200 / 500 * 100,
             tolerance_threshold := (calculate_tolerance 200 (200 / 500 * 100)).1,
             tolerance_status := (calculate_tolerance 200 (200 / 500 * 100)).2 } ∧
    (calculate_tolerance 200 (200 / 500 * 100)).1 = 50 :=
  ⟨tolerance_threshold_tiers_and_examples.1 200 500 (by norm_num),
   (tolerance_threshold_tiers_and_examples.2.1 200 (200 / 500 * 100)).1
     ⟨by norm_num, by norm_num⟩⟩

/-! ### Empty-order aggregation (src/processing.py, process_empty_orders) -/

/-- Distinct values of a list, keeping the first occurrence of each. -/
def dedupFirst : List Value → List Value
  | [] => []
  | v :: vs => v :: (dedupFirst vs).filter (fun w => decide (w ≠ v))

/-- One stored summary row (the EmptyOrderSummary entity of
src/database.py). -/
structure EmptyOrderSummary where
  description : Value
  total_net_amount : ℚ
  transaction_count : ℕ
deriving DecidableEq, Repr

/-- Numeric view of a cell for summation: pandas sum skips missing values,
so a missing cell contributes 0 (the net_amount column is Float in the
schema, so no string reaches the sum). -/
def cellNum : Value → ℚ
  | .num q => q
  | _ => 0

/-- Columns read by process_empty_orders. -/
def eosSourceCols : List String := ["order_id", "description", "net_amount"]

/-- The rows selected by the missing-order-id mask of process_empty_orders
(src/processing.py line 108). -/
def emptyOrderRows (rows : List Row) : List Row :=
  rows.filter (fun r => (rowGet r "order_id").isna)

/-- The groupby key of one row: its description, or nothing when the
description is missing — pandas groupby drops rows whose key is missing. -/
def descKey (r : Row) : Option Value :=
  match rowGet r "description" with
  | .null => none
  | v => some v

/-- The summary stored for the group of key k among the selected rows:
total_net_amount is the group sum of net_amount (missing summands skipped,
hence 0) and transaction_count is the pandas count of the order_id column
inside the group — the number of its non-missing order_id cells. -/
def summaryOf (empty_orders : List Row) (k : Value) : EmptyOrderSummary :=
  let grp := empty_orders.filter (fun r => decide (rowGet r "description" = k))
  { description := k,
    total_net_amount := (grp.map (fun r => cellNum (rowGet r "net_amount"))).sum,
    transaction_count := (grp.filter (fun r => !(rowGet r "order_id").isna)).length }

/-- process_empty_orders (src/processing.py lines 103-128): select the rows
with a missing order_id, group them by description and store one summary
per group.  (pandas emits groups in sorted key order; first-occurrence
order is used here, as no property below depends on the emission order.) -/
def process_empty_orders (df : Df) : Except String (List EmptyOrderSummary) :=
  if eosSourceCols.all (fun c => decide (c ∈ df.cols)) then
    .ok ((dedupFirst ((emptyOrderRows df.rows).filterMap descKey)).map
      (summaryOf (emptyOrderRows df.rows)))
  else .error "KeyError"

/-- The two-row table of the worked example of the spec: both rows lack an
order id, share description X, and carry net amounts 10 and 20. -/
def emptyOrdersExample : Df :=
  { cols := eosSourceCols,
    rows := [[("order_id", .null), ("description", .str "X"), ("net_amount", .num 10)],
             [("order_id", .null), ("description", .str "X"), ("net_amount", .num 20)]] }

/-- C3: on the worked example the single emitted summary carries
total_net_amount 30 as the claim states, but transaction_count 0 — not the
group size 2 — because the aggregation counts the non-missing order_id
cells of a group in which every order_id is missing by construction. -/
theorem empty_orders_count_is_zero :
    process_empty_orders emptyOrdersExample =
      .ok [{ description := .str "X", total_net_amount := 30,
             transaction_count := 0 }] := by
  have h30 : (10 : ℚ) + (20 + 0) = 30 := by norm_num
  rw [show process_empty_orders emptyOrdersExample =
        .ok [{ description := .str "X", total_net_amount := (10 : ℚ) + (20 + 0),
               transaction_count := 0 }] from rfl, h30]

/-- Every member of dedupFirst l is a member of l. -/
theorem mem_of_mem_dedupFirst (l : List Value) (v : Value) (h : v ∈ dedupFirst l) :
    v ∈ l := by
  induction l with
  | nil => simp [dedupFirst] at h
  | cons w l ih =>
      rw [dedupFirst, List.mem_cons] at h
      rcases h with rfl | h
      · exact List.mem_cons_self _ _
      · exact List.mem_cons_of_mem _ (ih (List.mem_of_mem_filter h))

/-- A record with both the order id and the description missing. -/
def nullDescRow (q : ℚ) : Row :=
  [("order_id", Value.null), ("description", Value.null),
   ("net_amount", Value.num q)]

/-- C9: a row whose order_id and description are both missing contributes to
no summary — appending such a row to any table leaves the output of
process_empty_orders unchanged, because the groupby drops the missing key
rather than forming a group for it. -/
theorem empty_orders_ignore_null_description
    (cols : List String) (rows : List Row) (q : ℚ) :
    process_empty_orders { cols := cols, rows := rows ++ [nullDescRow q] } =
      process_empty_orders { cols := cols, rows := rows } := by
  unfold process_empty_orders
  by_cases hcols : (eosSourceCols.all (fun c => decide (c ∈ cols))) = true
  · rw [if_pos hcols, if_pos hcols]
    show Except.ok ((dedupFirst ((emptyOrderRows (rows ++ [nullDescRow q])).filterMap
            descKey)).map (summaryOf (emptyOrderRows (rows ++ [nullDescRow q])))) =
         Except.ok ((dedupFirst ((emptyOrderRows rows).filterMap descKey)).map
            (summaryOf (emptyOrderRows rows)))
    have hE : emptyOrderRows (rows ++ [nullDescRow q]) =
        emptyOrderRows rows ++ [nullDescRow q] := by
      rw [emptyOrderRows, emptyOrderRows, List.filter_append]
      rfl
    rw [hE]
    have hkeys : (emptyOrderRows rows ++ [nullDescRow q]).filterMap descKey =
        (emptyOrderRows rows).filterMap descKey := by
      rw [List.filterMap_append]
      simp [descKey, nullDescRow, rowGet]
    rw [hkeys]
    congr 1
    apply List.map_congr_left
    intro k hk
    have hknn : k ≠ Value.null := by
      have hmem := mem_of_mem_dedupFirst _ k hk
      obtain ⟨r, -, hr⟩ := List.mem_filterMap.mp hmem
      intro hknull
      subst hknull
      rw [descKey] at hr
      revert hr
      cases rowGet r "description" <;> simp
    unfold summaryOf
    rw [List.filter_append]
    have hnk : ¬ (Value.null = k) := fun h => hknn h.symm
    simp [nullDescRow, rowGet, hnk]
  · rw [if_neg hcols, if_neg hcols]

/-! ### Order-id mapping built while storing rows (src/processing.py,
store_data_in_db) -/

/-- Overwrite-or-append assignment on the order-id mapping
(Python dict item assignment). -/
def assocSet : List (Value × ℕ) → Value → ℕ → List (Value × ℕ)
  | [], k, n => [(k, n)]
  | (k', n') :: m, k, n =>
      if k' = k then (k', n) :: m else (k', n') :: assocSet m k n

/-- The database identifier generated for the i-th inserted row: db.flush
assigns consecutive primary keys, modelled as position plus one. -/
def entryId (i : ℕ) : ℕ := i + 1

/-- store_data_in_db (src/processing.py lines 86-101): every row is
inserted and flushed, and the mapping gains the binding order_id to the
fresh identifier for exactly the rows whose order_id cell is truthy in the
Python sense — the None sentinel and the empty string are falsy and
recorded for no row; a later row with the same order_id overwrites the
binding.  The row index i and the mapping built so far are explicit
arguments (the Python loop state); the initial call passes 0 and the empty
mapping, as store_merged_data does. -/
def store_data_in_db : List Row → ℕ → List (Value × ℕ) → List (Value × ℕ)
  | [], _, mapping => mapping
  | r :: rs, i, mapping =>
      let v := rowGet r "order_id"
      store_data_in_db rs (i + 1)
        (if v.truthy then assocSet mapping v (entryId i) else mapping)

/-- Index of the last row (counting from i) whose order_id cell equals v. -/
def lastOrderIdx : List Row → ℕ → Value → Option ℕ
  | [], _, _ => none
  | r :: rs, i, v =>
      match lastOrderIdx rs (i + 1) v with
      | some j => some j
      | none => if rowGet r "order_id" = v then some i else none

/-- Reading the mapping after an assignment: the assigned key reads the new
identifier, every other key is untouched. -/
theorem assocGet_assocSet (m : List (Value × ℕ)) (k : Value) (n : ℕ) (v : Value) :
    assocGet (assocSet m k n) v = if k = v then some n else assocGet m v := by
  induction m with
  | nil => rfl
  | cons hd m ih =>
      obtain ⟨k', n'⟩ := hd
      by_cases hk : k' = k
      · subst hk
        by_cases hv : k' = v <;> simp [assocSet, assocGet, hv]
      · by_cases hv : k' = v
        · subst hv
          have : ¬ k = k' := fun h => hk h.symm
          simp [assocSet, assocGet, hk, this]
        · simp [assocSet, assocGet, hk, hv, ih]

/-- Invariant of the storing loop: a truthy key reads the identifier of the
last row bound to it, or falls back to the incoming mapping; a non-truthy
key always falls back. -/
theorem store_data_in_db_lookup (rows : List Row) (i : ℕ)
    (mapping : List (Value × ℕ)) (v : Value) :
    assocGet (store_data_in_db rows i mapping) v =
      if v.truthy = true then
        match lastOrderIdx rows i v with
        | some j => some (entryId j)
        | none => assocGet mapping v
      else assocGet mapping v := by
  induction rows generalizing i mapping with
  | nil =>
      rw [store_data_in_db, lastOrderIdx]
      split <;> rfl
  | cons r rs ih =>
      rw [store_data_in_db, lastOrderIdx]
      rw [ih]
      by_cases hv : v.truthy = true
      · rw [if_pos hv, if_pos hv]
        cases hrec : lastOrderIdx rs (i + 1) v
        · by_cases hwv : rowGet r "order_id" = v
          · rw [hwv, if_pos hv, if_pos rfl, assocGet_assocSet, if_pos rfl]
          · have : ¬ rowGet r "order_id" = v := hwv
            rw [if_neg this]
            by_cases hw : (rowGet r "order_id").truthy = true
            · rw [if_pos hw, assocGet_assocSet, if_neg this]
            · rw [if_neg hw]
        · rfl
      · rw [if_neg hv, if_neg hv]
        by_cases hwv : rowGet r "order_id" = v
        · rw [hwv, if_neg hv]
        · by_cases hw : (rowGet r "order_id").truthy = true
          · rw [if_pos hw, assocGet_assocSet, if_neg hwv]
          · rw [if_neg hw]

/-- C10: after storing a table starting from the empty mapping, a key v is
bound exactly when v is truthy (the missing sentinel and the empty string
are excluded) and some stored row carries order_id v, and it is bound to
the identifier generated for the last such row in input order. -/
theorem store_mapping_last_truthy_wins (rows : List Row) (v : Value) :
    assocGet (store_data_in_db rows 0 []) v =
      if v.truthy = true then (lastOrderIdx rows 0 v).map entryId else none := by
  rw [store_data_in_db_lookup]
  cases h : lastOrderIdx rows 0 v <;> split <;> simp [h, assocGet]

end Backend
